import Mathlib

/-!
Shallow embedding of the jellyfin operator charm (src/charm.py) together
with proofs about its reconciliation behaviour.

The charm reacts to lifecycle events by running a common reconciliation
hook against a process supervisor (pebble) that lives in the workload
container.  We embed the charm-side logic faithfully:

* Python dicts of service definitions become finite maps
  (Finmap String ServiceDef), whose equality matches Python dict equality.
* The supervisor's observable state for one pass becomes an explicit
  PebbleState record; connectivity is sampled twice in the source
  (at the start of the hook and again inside the restart helper, the
  source commenting that state may have changed in between), so the
  state carries both samples.
* Side effects (get_plan, add_layer, restart calls) are tracked in an
  Effects record threaded through the functions.
* The single place the code could raise (container.get_service on a
  missing service raises ModelError) is modelled with Option: none means
  the exception propagates out of the hook.
-/

namespace Jellyfin

/-- One pebble service definition, as written in the charm's layer:
override, summary, startup policy and command line. -/
structure ServiceDef where
  override : String
  summary : String
  startup : String
  command : String
deriving DecidableEq, Repr

/-- A pebble services map (Python dict from service name to definition).
Finmap equality coincides with Python dict equality: order-irrelevant,
key-unique. -/
abbrev Services := Finmap fun _ : String => ServiceDef

/-- JellyfinCharm._service_name. -/
def serviceName : String := "jellyfin"

/-- JellyfinCharm._layer_name (label passed to add_layer). -/
def layerName : String := "jellyfin"

/-- JellyfinCharm._port. -/
def port : Nat := 8096

/-- The command built by the inner _command helper of JellyfinCharm._layer. -/
def jellyfinCommand : String :=
  "/jellyfin/jellyfin --datadir=/config --cachedir=/cache --ffmpeg=/usr/lib/jellyfin-ffmpeg/ffmpeg"

/-- The service definition the charm declares for jellyfin
(JellyfinCharm._layer, services entry). -/
def desiredService : ServiceDef :=
  { override := "replace"
    summary := "jellyfin service"
    startup := "enabled"
    command := jellyfinCommand }

/-- The services dict of the desired layer built by JellyfinCharm._layer:
exactly one entry, the jellyfin service. -/
def layerServices : Services := Finmap.singleton serviceName desiredService

/-- Unit status values used by the charm (ops.model).  The source imports
ActiveStatus, BlockedStatus and MaintenanceStatus; WaitingStatus is part of
the same status surface and is included so statements about it can be made. -/
inductive Status where
  | active : Status
  | blocked : String → Status
  | maintenance : String → Status
  | waiting : String → Status
deriving DecidableEq, Repr

/-- Observable supervisor-side state during one reconciliation pass.
connect1 is the result of the can_connect query made at the top of
_common_exit_hook; connect2 is the result of the can_connect query made
inside _restart_service (the source re-verifies because connectivity may
have changed since the initial check).  planServices is the services map
of container.get_plan, which get_services / get_service also read.
running is the set of services whose ServiceInfo.is_running() is true. -/
structure PebbleState where
  connect1 : Bool
  connect2 : Bool
  planServices : Services
  running : Finset String
deriving DecidableEq

/-- Counters for the side effects a pass performs against the supervisor. -/
structure Effects where
  getPlanCalls : Nat
  addLayerCalls : Nat
  restartAttempts : Nat
  restartFailures : Nat
  restartCalls : Nat
deriving DecidableEq, Repr

/-- No side effects. -/
def Effects.zero : Effects := ⟨0, 0, 0, 0, 0⟩

/-- Componentwise accumulation of side effects. -/
def Effects.comb (a b : Effects) : Effects :=
  ⟨a.getPlanCalls + b.getPlanCalls,
   a.addLayerCalls + b.addLayerCalls,
   a.restartAttempts + b.restartAttempts,
   a.restartFailures + b.restartFailures,
   a.restartCalls + b.restartCalls⟩

/-- JellyfinCharm._update_config: currently always returns False
(no config change). -/
def updateConfig : Bool := false

/-- JellyfinCharm._restart_service.  Re-checks connectivity (connect2),
then checks that the named service is known to the supervisor
(get_services().get(name)); only if both pass does it call the underlying
container.restart primitive.  Returns the boolean result, the state after
the call, and the effects performed.  container.restart leaves the
service running. -/
def restartService (s : PebbleState) : Bool × PebbleState × Effects :=
  if s.connect2 = false then
    (false, s, ⟨0, 0, 1, 1, 0⟩)
  else if (s.planServices.lookup serviceName).isNone then
    (false, s, ⟨0, 0, 1, 1, 0⟩)
  else
    (true, { s with running := insert serviceName s.running }, ⟨0, 0, 1, 0, 1⟩)

/-- JellyfinCharm._update_layer.  Builds the desired overlay, fetches the
plan, and if the named service is absent from the plan or the overlay's
services dict differs from the plan's services dict, submits the overlay
via add_layer (combine=True; with override "replace" the resulting plan
maps the named service to the desired definition and keeps other
services).  If a change was detected and the restart flag is set, calls
_restart_service (result discarded).  Returns the is_changed flag, the
resulting state, and the effects. -/
def updateLayer (restart : Bool) (s : PebbleState) : Bool × PebbleState × Effects :=
  let overlay := layerServices
  let plan := s.planServices
  if serviceName ∉ plan ∨ overlay ≠ plan then
    let s1 : PebbleState := { s with planServices := plan.insert serviceName desiredService }
    if restart then
      let r := restartService s1
      (true, r.2.1, Effects.comb ⟨1, 1, 0, 0, 0⟩ r.2.2)
    else
      (true, s1, ⟨1, 1, 0, 0, 0⟩)
  else
    (false, s, ⟨1, 0, 0, 0, 0⟩)

/-- container.get_service(name): returns is_running() of the named
service, or none when the service is absent from the plan (in which case
the source raises ModelError). -/
def getService (s : PebbleState) (name : String) : Option Bool :=
  if name ∈ s.planServices then some (name ∈ s.running) else none

/-- JellyfinCharm._common_exit_hook.  The common reconciliation pass:
check connectivity, update config and layer, read the service's running
state, restart when the layer or config changed or the service is not
running, and set the unit status.  Returns none when get_service raises
(service absent from the plan); otherwise some (status, state, effects). -/
def commonExitHook (s : PebbleState) : Option (Status × PebbleState × Effects) :=
  if s.connect1 = false then
    some (Status.maintenance "Waiting for pod startup to complete", s, Effects.zero)
  else
    let configChanged := updateConfig
    let u := updateLayer false s
    let layerChanged := u.1
    let s1 := u.2.1
    let e1 := u.2.2
    match getService s1 serviceName with
    | none => none
    | some isRunning =>
      let serviceRunning := isRunning
      if layerChanged || configChanged || !serviceRunning then
        let r := restartService s1
        if r.1 = false then
          some (Status.blocked "Service restart failed", r.2.1, Effects.comb e1 r.2.2)
        else
          some (Status.active, r.2.1, Effects.comb e1 r.2.2)
      else
        some (Status.active, s1, e1)

/-- Outcome of one call to _patch_k8s_service: how many times set_ports
was invoked, whether an exception escaped the function, and which unit
status the function set (it never sets one). -/
structure PatchLog where
  setPortsCalls : Nat
  raised : Bool
  statusSet : Option Status
deriving DecidableEq, Repr

/-- The service-port list submitted by _patch_k8s_service:
[(app_name, port, port)]. -/
def servicePorts (appName : String) : List (String × Nat × Nat) :=
  [(appName, port, port)]

/-- JellyfinCharm._patch_k8s_service.  Only the leader calls
K8sServicePatch.set_ports; a PatchFailed outcome (setPortsFails) is
caught and logged, so the function always returns normally and never
sets a unit status. -/
def patchK8sService (isLeader : Bool) (setPortsFails : Bool) : PatchLog :=
  if isLeader then
    if setPortsFails then
      { setPortsCalls := 1, raised := false, statusSet := none }
    else
      { setPortsCalls := 1, raised := false, statusSet := none }
  else
    { setPortsCalls := 0, raised := false, statusSet := none }

/-- The lifecycle events the charm observes in JellyfinCharm.__init__. -/
inductive Event where
  | install : Event
  | upgradeCharm : Event
  | pebbleReady : Event
  | start : Event
  | updateStatus : Event
deriving DecidableEq, Repr

/-- Which of the two entry points a handler invoked: number of calls to
_common_exit_hook and to _patch_k8s_service. -/
structure HandlerLog where
  hookCalls : Nat
  patchCalls : Nat
deriving DecidableEq, Repr

/-- Dispatch of one observed event to its registered handler, transcribing
each handler body: _on_install calls _patch_k8s_service; _on_upgrade_charm
calls _patch_k8s_service then _common_exit_hook; _on_pebble_ready and
_on_start call _common_exit_hook; _on_update_status has an empty body
(pass).  Returns the handler's call log, the hook outcome when the hook
ran, and the patch outcome when the patcher ran. -/
def handleEvent (isLeader setPortsFails : Bool) (s : PebbleState) :
    Event → HandlerLog × Option (Status × PebbleState × Effects) × Option PatchLog
  | Event.install =>
      (⟨0, 1⟩, none, some (patchK8sService isLeader setPortsFails))
  | Event.upgradeCharm =>
      (⟨1, 1⟩, commonExitHook s, some (patchK8sService isLeader setPortsFails))
  | Event.pebbleReady =>
      (⟨1, 0⟩, commonExitHook s, none)
  | Event.start =>
      (⟨1, 0⟩, commonExitHook s, none)
  | Event.updateStatus =>
      (⟨0, 0⟩, none, none)

/-- Whether a status is a waiting status. -/
def Status.isWaiting : Status → Bool
  | Status.waiting _ => true
  | _ => false

/-! ### Helper lemmas about the embedded functions -/

/-- After the layer step, the plan maps the named service to the desired
definition: either add_layer just inserted it, or the plan already
equalled the desired layer's services dict. -/
theorem lookup_updateLayer (s : PebbleState) :
    ((updateLayer false s).2.1).planServices.lookup serviceName = some desiredService := by
  by_cases hch : serviceName ∉ s.planServices ∨ layerServices ≠ s.planServices
  · simp only [updateLayer]
    rw [if_pos hch]
    simp [Finmap.lookup_insert]
  · simp only [updateLayer]
    rw [if_neg hch]
    push_neg at hch
    rw [← hch.2]
    simp [layerServices, Finmap.lookup_singleton_eq]

/-- After the layer step, the named service is in the plan. -/
theorem mem_updateLayer (s : PebbleState) :
    serviceName ∈ ((updateLayer false s).2.1).planServices := by
  have h := lookup_updateLayer s
  exact Finmap.lookup_isSome.mp (by simp [h])

/-- The layer step does not touch the running set. -/
theorem running_updateLayer (s : PebbleState) :
    ((updateLayer false s).2.1).running = s.running := by
  by_cases hch : serviceName ∉ s.planServices ∨ layerServices ≠ s.planServices
  · simp only [updateLayer]
    rw [if_pos hch]
    simp
  · simp only [updateLayer]
    rw [if_neg hch]

/-- The layer step does not touch the second connectivity sample. -/
theorem connect2_updateLayer (s : PebbleState) :
    ((updateLayer false s).2.1).connect2 = s.connect2 := by
  by_cases hch : serviceName ∉ s.planServices ∨ layerServices ≠ s.planServices
  · simp only [updateLayer]
    rw [if_pos hch]
    simp
  · simp only [updateLayer]
    rw [if_neg hch]

/-- The restart helper does not touch the plan. -/
theorem planServices_restartService (s : PebbleState) :
    ((restartService s).2.1).planServices = s.planServices := by
  unfold restartService
  split
  · rfl
  · split <;> rfl

/-- The layer step when the code's change condition holds: one add_layer,
the desired definition is inserted into the plan. -/
theorem updateLayer_pos (s : PebbleState)
    (hch : serviceName ∉ s.planServices ∨ layerServices ≠ s.planServices) :
    updateLayer false s =
      (true, { s with planServices := s.planServices.insert serviceName desiredService },
       ⟨1, 1, 0, 0, 0⟩) := by
  simp only [updateLayer]
  rw [if_pos hch]
  simp

/-- The layer step when the code's change condition fails: no add_layer,
state unchanged. -/
theorem updateLayer_neg (s : PebbleState)
    (hch : ¬(serviceName ∉ s.planServices ∨ layerServices ≠ s.planServices)) :
    updateLayer false s = (false, s, ⟨1, 0, 0, 0, 0⟩) := by
  simp only [updateLayer]
  rw [if_neg hch]

/-- The restart helper either fails leaving the state unchanged (recording
one failed attempt) or succeeds marking the named service running
(recording one successful attempt with one restart primitive call). -/
theorem restartService_cases (x : PebbleState) :
    restartService x = (false, x, ⟨0, 0, 1, 1, 0⟩)
    ∨ restartService x = (true, { x with running := insert serviceName x.running },
        ⟨0, 0, 1, 0, 1⟩) := by
  unfold restartService
  split
  · left
    rfl
  · split
    · left
      rfl
    · right
      rfl

/-- Characterization of the hook when the initial connectivity check
passes: the layer step runs, get_service finds the named service, and
the restart decision is taken on the layer-changed flag and the running
state. -/
theorem hook_eq (s : PebbleState) (h : s.connect1 = true) :
    commonExitHook s =
      (if (updateLayer false s).1 || !(decide (serviceName ∈ s.running)) then
        (if (restartService (updateLayer false s).2.1).1 = false then
          some (Status.blocked "Service restart failed",
                (restartService (updateLayer false s).2.1).2.1,
                Effects.comb (updateLayer false s).2.2
                  (restartService (updateLayer false s).2.1).2.2)
        else
          some (Status.active,
                (restartService (updateLayer false s).2.1).2.1,
                Effects.comb (updateLayer false s).2.2
                  (restartService (updateLayer false s).2.1).2.2))
      else
        some (Status.active, (updateLayer false s).2.1, (updateLayer false s).2.2)) := by
  unfold commonExitHook
  rw [h]
  have hmem := mem_updateLayer s
  have hrun := running_updateLayer s
  simp only [Bool.true_eq_false, Bool.false_eq_true, if_false, getService, hmem, if_pos, hrun,
    updateConfig, Bool.or_false, Bool.false_or]

/-! ### Concrete states used to exercise the theorems -/

/-- A pass in which the very first connectivity check fails. -/
def unreachableState : PebbleState := ⟨false, false, ∅, ∅⟩

/-- A pass in which the first connectivity check fails although the plan
is already converged and the service runs. -/
def unreachableState2 : PebbleState := ⟨false, true, layerServices, {serviceName}⟩

/-- A reachable supervisor with an empty plan. -/
def emptyPlanState : PebbleState := ⟨true, true, ∅, ∅⟩

/-- A converged plan with the service running. -/
def convergedRunningState : PebbleState := ⟨true, true, layerServices, {serviceName}⟩

/-- A converged plan with the service stopped. -/
def convergedStoppedState : PebbleState := ⟨true, true, layerServices, ∅⟩

/-- Connectivity present at the initial check but lost by the time the
restart helper re-verifies it. -/
def lostConnState : PebbleState := ⟨true, false, ∅, ∅⟩

/-- A service definition for some unrelated service in the plan. -/
def extraService : ServiceDef :=
  { override := "replace", summary := "other service", startup := "enabled",
    command := "/bin/other" }

/-- A plan that maps the named service to exactly the desired definition
but also carries an unrelated extra service. -/
def extraPlanState : PebbleState :=
  ⟨true, true, layerServices.insert "other" extraService, {serviceName}⟩

/-- The state produced by a pass on emptyPlanState. -/
def emptyPlanOut : PebbleState :=
  ⟨true, true, Finmap.singleton serviceName desiredService, {serviceName}⟩

/-- The state produced by a pass on lostConnState. -/
def lostConnOut : PebbleState :=
  ⟨true, false, Finmap.singleton serviceName desiredService, ∅⟩

/-! ### Claim theorems -/

/-- C10: in every pass that reaches the service-running check, the
get_service lookup of the named service cannot hit its service-not-found
error branch: the layer step runs first and guarantees the named service
is in the plan, so the hook never propagates the ModelError (modelled as
none). -/
theorem c10_get_service_never_fails (s : PebbleState) (h : s.connect1 = true) :
    serviceName ∈ ((updateLayer false s).2.1).planServices
    ∧ (commonExitHook s).isSome = true := by
  refine ⟨mem_updateLayer s, ?_⟩
  rw [hook_eq s h]
  split
  · split <;> rfl
  · rfl

/-- Witness for C10 at a concrete reachable state with an empty plan. -/
theorem c10_witness :
    serviceName ∈ ((updateLayer false emptyPlanState).2.1).planServices
    ∧ (commonExitHook emptyPlanState).isSome = true :=
  c10_get_service_never_fails emptyPlanState (by decide)

/-- C3: with a reachable supervisor, an applied plan equal to the desired
layer's services dict, and the named service running, a pass performs no
add_layer and no restart (only the one get_plan read), ends active, and
leaves the state unchanged — so repeating the pass under the same
conditions yields the same result. -/
theorem c3_idempotent_pass (s : PebbleState) (h1 : s.connect1 = true)
    (h2 : s.planServices = layerServices) (h3 : serviceName ∈ s.running) :
    commonExitHook s = some (Status.active, s, ⟨1, 0, 0, 0, 0⟩) := by
  have hmem : serviceName ∈ s.planServices := by
    rw [h2]
    simp [layerServices, Finmap.mem_singleton]
  have hch : ¬(serviceName ∉ s.planServices ∨ layerServices ≠ s.planServices) := by
    push_neg
    exact ⟨hmem, h2.symm⟩
  rw [hook_eq s h1, updateLayer_neg s hch]
  simp [h3]

/-- Witness for C3 at the converged running state. -/
theorem c3_witness :
    commonExitHook convergedRunningState =
      some (Status.active, convergedRunningState, ⟨1, 0, 0, 0, 0⟩) :=
  c3_idempotent_pass convergedRunningState (by decide) (by decide) (by decide)

/-- C5: the hook never reports active while the named service's definition
in the applied plan differs from the desired one: whenever a pass ends
with active status, the resulting plan maps the named service to the
desired definition. -/
theorem c5_active_implies_converged (s : PebbleState) (st : Status) (s2 : PebbleState)
    (e : Effects) (h : commonExitHook s = some (st, s2, e)) (ha : st = Status.active) :
    s2.planServices.lookup serviceName = some desiredService := by
  by_cases hc : s.connect1 = true
  · rw [hook_eq s hc] at h
    split at h
    · split at h
      · simp only [Option.some.injEq, Prod.mk.injEq] at h
        rw [ha] at h
        exact absurd h.1.symm (by simp)
      · simp only [Option.some.injEq, Prod.mk.injEq] at h
        rw [← h.2.1, planServices_restartService, lookup_updateLayer]
    · simp only [Option.some.injEq, Prod.mk.injEq] at h
      rw [← h.2.1, lookup_updateLayer]
  · have hcf : s.connect1 = false := by
      revert hc
      cases s.connect1 <;> simp
    simp only [commonExitHook, hcf, if_pos, Option.some.injEq, Prod.mk.injEq] at h
    rw [ha] at h
    exact absurd h.1.symm (by simp)

/-- Witness for C5 at the converged running state. -/
theorem c5_witness :
    convergedRunningState.planServices.lookup serviceName = some desiredService :=
  c5_active_implies_converged convergedRunningState Status.active convergedRunningState
    ⟨1, 0, 0, 0, 0⟩ (by decide) rfl

/-- The layer step records no restart failure (it is called with
restart=False from the hook). -/
theorem restartFailures_updateLayer (s : PebbleState) :
    ((updateLayer false s).2.2).restartFailures = 0 := by
  by_cases hch : serviceName ∉ s.planServices ∨ layerServices ≠ s.planServices
  · rw [updateLayer_pos s hch]
  · rw [updateLayer_neg s hch]

/-- C4 counterexample to the claim as stated: with an unreachable
supervisor the hook sets a maintenance status, not a waiting status. -/
theorem c4_counterexample :
    unreachableState2.connect1 = false
    ∧ (commonExitHook unreachableState2).map (fun x => Status.isWaiting x.1) = some false := by
  decide

/-- C4 (amended): if the initial connectivity check fails, the pass
returns immediately with the maintenance status "Waiting for pod startup
to complete", an unchanged state, and zero side effects: no get_plan, no
add_layer, and no restart attempt. -/
theorem c4_unreachable_no_side_effects (s : PebbleState) (h : s.connect1 = false) :
    commonExitHook s =
      some (Status.maintenance "Waiting for pod startup to complete", s, Effects.zero) := by
  simp [commonExitHook, h]

/-- Witness for C4 at a concrete unreachable state. -/
theorem c4_witness :
    commonExitHook unreachableState2 =
      some (Status.maintenance "Waiting for pod startup to complete", unreachableState2,
        Effects.zero) :=
  c4_unreachable_no_side_effects unreachableState2 (by decide)

/-- C1 counterexample to the claim as stated: with an unreachable
supervisor the resulting status is a maintenance status, not a waiting
status. -/
theorem c1_counterexample :
    unreachableState.connect1 = false
    ∧ (commonExitHook unreachableState).map (fun x => x.1) =
        some (Status.maintenance "Waiting for pod startup to complete")
    ∧ (commonExitHook unreachableState).map (fun x => Status.isWaiting x.1) = some false := by
  decide

/-- C1 (amended): terminal outcome mapping of a pass — supervisor
unreachable yields the maintenance status "Waiting for pod startup to
complete"; a failed restart attempt yields blocked "Service restart
failed"; in every other case the status is active. -/
theorem c1_terminal_status_mapping (s : PebbleState) (st : Status) (s2 : PebbleState)
    (e : Effects) (h : commonExitHook s = some (st, s2, e)) :
    st = if s.connect1 = false then Status.maintenance "Waiting for pod startup to complete"
         else if e.restartFailures = 0 then Status.active
         else Status.blocked "Service restart failed" := by
  by_cases hc : s.connect1 = true
  · rw [hc]
    simp only [Bool.true_eq_false, if_false]
    rw [hook_eq s hc] at h
    split at h
    · rcases restartService_cases (updateLayer false s).2.1 with hr | hr <;>
        rw [hr] at h <;> simp at h <;>
        obtain ⟨hst, hs2, he⟩ := h <;> subst hst <;> subst he <;>
        simp [Effects.comb, restartFailures_updateLayer s]
    · simp only [Option.some.injEq, Prod.mk.injEq] at h
      obtain ⟨hst, hs2, he⟩ := h
      subst hst
      subst he
      simp [restartFailures_updateLayer s]
  · have hcf : s.connect1 = false := by
      revert hc
      cases s.connect1 <;> simp
    rw [hcf]
    simp only [if_true]
    simp only [commonExitHook, hcf, if_pos, Option.some.injEq, Prod.mk.injEq] at h
    exact h.1.symm

/-- Witness for C1 at a state whose restart attempt fails (connectivity
lost between the two checks): status blocked. -/
theorem c1_witness :
    Status.blocked "Service restart failed" =
      (if lostConnState.connect1 = false
       then Status.maintenance "Waiting for pod startup to complete"
       else if (⟨1, 1, 1, 1, 0⟩ : Effects).restartFailures = 0 then Status.active
       else Status.blocked "Service restart failed") :=
  c1_terminal_status_mapping lostConnState (Status.blocked "Service restart failed")
    lostConnOut ⟨1, 1, 1, 1, 0⟩ (by decide)

/-- C2 counterexample to the claim as stated: a plan that maps the named
service to exactly the desired definition but carries an extra service
still triggers a layer submission, because the code compares the whole
services dict, not just the named service's definition. -/
theorem c2_counterexample :
    serviceName ∈ extraPlanState.planServices
    ∧ extraPlanState.planServices.lookup serviceName = some desiredService
    ∧ (commonExitHook extraPlanState).map (fun x => x.2.2.addLayerCalls) = some 1 := by
  decide

/-- C2 (amended): in every pass with a reachable supervisor, if the named
service is absent from the plan or the plan's services dict differs from
the desired layer's services dict, exactly one add_layer occurs, followed
by exactly one restart attempt; in every other pass no add_layer
occurs (in particular none when the supervisor is unreachable). -/
theorem c2_layer_submission (s : PebbleState) (st : Status) (s2 : PebbleState) (e : Effects)
    (h : commonExitHook s = some (st, s2, e)) :
    (s.connect1 = true →
      ((serviceName ∉ s.planServices ∨ layerServices ≠ s.planServices) →
        e.addLayerCalls = 1 ∧ e.restartAttempts = 1)
      ∧ (¬(serviceName ∉ s.planServices ∨ layerServices ≠ s.planServices) →
        e.addLayerCalls = 0))
    ∧ (s.connect1 = false → e.addLayerCalls = 0) := by
  by_cases hc : s.connect1 = true
  · constructor
    · intro _
      rw [hook_eq s hc] at h
      constructor
      · intro hch
        rw [updateLayer_pos s hch] at h
        rcases restartService_cases
            { s with planServices := s.planServices.insert serviceName desiredService } with
          hr | hr <;>
          rw [hr] at h <;> simp at h <;>
          obtain ⟨hst, hs2, he⟩ := h <;> subst he <;>
          simp [Effects.comb]
      · intro hch
        rw [updateLayer_neg s hch] at h
        by_cases hrun : serviceName ∈ s.running
        · simp [hrun] at h
          obtain ⟨hst, hs2, he⟩ := h
          subst he
          rfl
        · rcases restartService_cases s with hr | hr <;>
            rw [hr] at h <;> simp [hrun] at h <;>
            obtain ⟨hst, hs2, he⟩ := h <;> subst he <;>
            simp [Effects.comb]
    · intro hcf
      rw [hc] at hcf
      exact absurd hcf (by simp)
  · have hcf : s.connect1 = false := by
      revert hc
      cases s.connect1 <;> simp
    constructor
    · intro hct
      rw [hcf] at hct
      exact absurd hct (by simp)
    · intro _
      simp only [commonExitHook, hcf, if_pos, Option.some.injEq, Prod.mk.injEq] at h
      obtain ⟨hst, hs2, he⟩ := h
      subst he
      rfl

/-- Witness for C2 at the reachable empty-plan state: one submission,
one restart attempt. -/
theorem c2_witness :
    (emptyPlanState.connect1 = true →
      ((serviceName ∉ emptyPlanState.planServices
        ∨ layerServices ≠ emptyPlanState.planServices) →
        (⟨1, 1, 1, 0, 1⟩ : Effects).addLayerCalls = 1
        ∧ (⟨1, 1, 1, 0, 1⟩ : Effects).restartAttempts = 1)
      ∧ (¬(serviceName ∉ emptyPlanState.planServices
        ∨ layerServices ≠ emptyPlanState.planServices) →
        (⟨1, 1, 1, 0, 1⟩ : Effects).addLayerCalls = 0))
    ∧ (emptyPlanState.connect1 = false → (⟨1, 1, 1, 0, 1⟩ : Effects).addLayerCalls = 0) :=
  c2_layer_submission emptyPlanState Status.active emptyPlanOut ⟨1, 1, 1, 0, 1⟩ (by decide)

/-- C6: with a reachable supervisor, a restart is attempted if and only
if the layer changed, or the config changed, or the named service is not
reported running. -/
theorem c6_restart_decision (s : PebbleState) (st : Status) (s2 : PebbleState) (e : Effects)
    (h : commonExitHook s = some (st, s2, e)) (hc : s.connect1 = true) :
    e.restartAttempts = 1 ↔
      ((serviceName ∉ s.planServices ∨ layerServices ≠ s.planServices)
        ∨ updateConfig = true ∨ serviceName ∉ s.running) := by
  rw [hook_eq s hc] at h
  by_cases hch : serviceName ∉ s.planServices ∨ layerServices ≠ s.planServices
  · rw [updateLayer_pos s hch] at h
    rcases restartService_cases
        { s with planServices := s.planServices.insert serviceName desiredService } with
      hr | hr <;>
      rw [hr] at h <;> simp at h <;>
      obtain ⟨hst, hs2, he⟩ := h <;> subst he <;>
      simp [Effects.comb, hch]
  · rw [updateLayer_neg s hch] at h
    by_cases hrun : serviceName ∈ s.running
    · simp [hrun] at h
      obtain ⟨hst, hs2, he⟩ := h
      subst he
      simp [hch, hrun, updateConfig]
    · rcases restartService_cases s with hr | hr <;>
        rw [hr] at h <;> simp [hrun] at h <;>
        obtain ⟨hst, hs2, he⟩ := h <;> subst he <;>
        simp [Effects.comb, hrun]

/-- Witness for C6 at the converged-but-stopped state: the layer is
unchanged yet a restart is still attempted because the service is not
running (the OR-rule coverage case). -/
theorem c6_witness :
    (⟨1, 0, 1, 0, 1⟩ : Effects).restartAttempts = 1 ↔
      ((serviceName ∉ convergedStoppedState.planServices
        ∨ layerServices ≠ convergedStoppedState.planServices)
        ∨ updateConfig = true ∨ serviceName ∉ convergedStoppedState.running) :=
  c6_restart_decision convergedStoppedState Status.active convergedRunningState
    ⟨1, 0, 1, 0, 1⟩ (by decide) (by decide)

/-- C7: the restart helper re-verifies connectivity and aborts with
failure when it is gone; it returns failure without calling the restart
primitive when the named service is unknown to the supervisor; and the
restart primitive is called exactly when both checks pass. -/
theorem c7_restart_guards (s : PebbleState) :
    (s.connect2 = false → restartService s = (false, s, ⟨0, 0, 1, 1, 0⟩))
    ∧ (s.planServices.lookup serviceName = none →
        restartService s = (false, s, ⟨0, 0, 1, 1, 0⟩))
    ∧ ((restartService s).2.2.restartCalls = 1 ↔
        s.connect2 = true ∧ (s.planServices.lookup serviceName).isSome = true) := by
  cases hb : s.connect2 <;> rcases hop : s.planServices.lookup serviceName with _ | v <;>
    simp [restartService, hb, hop]

/-- Witness for C7 at a supervisor that knows no services: the restart
attempt fails without calling the restart primitive. -/
theorem c7_witness :
    restartService emptyPlanState = (false, emptyPlanState, ⟨0, 0, 1, 1, 0⟩) :=
  (c7_restart_guards emptyPlanState).2.1 (by decide)

/-- C8 counterexample to the claim as stated: the update-status handler
is registered but performs no call into the Reconciler or the patcher. -/
theorem c8_counterexample :
    (handleEvent true false emptyPlanState Event.updateStatus).1.hookCalls = 0
    ∧ (handleEvent true false emptyPlanState Event.updateStatus).1.patchCalls = 0 := by
  decide

/-- C8 (amended): the install, upgrade, container-ready and start
handlers each call into the Reconciler or the port patcher; the periodic
status-check handler has an empty body and calls neither. -/
theorem c8_handler_dispatch (isLeader setPortsFails : Bool) (s : PebbleState) (e : Event)
    (h : e ≠ Event.updateStatus) :
    1 ≤ (handleEvent isLeader setPortsFails s e).1.hookCalls
        + (handleEvent isLeader setPortsFails s e).1.patchCalls
    ∧ (handleEvent isLeader setPortsFails s Event.updateStatus).1 = ⟨0, 0⟩ := by
  cases e <;> first
  | exact absurd rfl h
  | simp [handleEvent]

/-- Witness for C8 at the install event. -/
theorem c8_witness :
    1 ≤ (handleEvent true false emptyPlanState Event.install).1.hookCalls
        + (handleEvent true false emptyPlanState Event.install).1.patchCalls
    ∧ (handleEvent true false emptyPlanState Event.updateStatus).1 = ⟨0, 0⟩ :=
  c8_handler_dispatch true false emptyPlanState Event.install (by decide)

/-- C9: only the leader replica ever calls set_ports; a PatchFailed
outcome is caught, the patcher returns normally (no exception escapes)
and never sets a unit status. -/
theorem c9_patcher_leader_gate (isLeader setPortsFails : Bool) :
    (isLeader = false → (patchK8sService isLeader setPortsFails).setPortsCalls = 0)
    ∧ (1 ≤ (patchK8sService isLeader setPortsFails).setPortsCalls → isLeader = true)
    ∧ (patchK8sService isLeader setPortsFails).raised = false
    ∧ (patchK8sService isLeader setPortsFails).statusSet = none := by
  cases isLeader <;> cases setPortsFails <;> simp [patchK8sService]

/-- Witness for C9 on a non-leader replica: set_ports is never called. -/
theorem c9_witness :
    (patchK8sService false true).setPortsCalls = 0 :=
  (c9_patcher_leader_gate false true).1 rfl

end Jellyfin
